import Mathlib

/-!
Verification development for the `stripekit` repository: a licensing and
billing gateway on top of a remote payment provider.

The code is embedded shallowly:

* JavaScript strings are Lean `String`s; an absent-or-present request field
  is an `Option String`, and JS falsiness of a string (`!s`, true for both
  `null`/`undefined` and the empty string) is `jsFalsy`.
* The remote provider's data (customers, subscriptions, usage records) is a
  pure `StripeState`; each HTTP endpoint is a function from the state and the
  request fields to a response, paired with the successor state when the
  endpoint mutates remote data.
* Remote calls whose outcome the provider decides (subscription creation, the
  backend fetch, signature verification) are inputs of type `Except`/`Option`:
  `Except.error` models a thrown JS exception propagating to the caller,
  `Except.ok` a normal return.
* Timestamps are integers; minor-unit currency amounts are integers and the
  transformed decimal amounts are rationals (`amount / 100`).

Sources embedded: `server.js`, `api-validate.js`, `api-subscriptions.js`,
`stripekit.js` and the two unnamed variants (`part_000`, the legacy SDK, and
`part_001`, the server variant with usage metering).
-/

/-- JS falsiness of an optional string field: `!x` is true when the field is
absent (`null`/`undefined`) or the empty string. -/
def jsFalsy (s : Option String) : Bool :=
  match s with
  | none => true
  | some t => t == ""

/-- JS `a || d` for an optional string `a` and default `d`: the default is
used when `a` is absent or falsy (empty). -/
def jsOr (a : Option String) (d : String) : String :=
  match a with
  | none => d
  | some s => if s == "" then d else s

/-- JS `s.startsWith(pre)`, modelled on the character lists. -/
def strStartsWith (pre s : String) : Bool :=
  pre.data.isPrefixOf s.data

/-- The key-format guard shared by `server.js` and `part_001`
(`/api/validate-key`) and by `stripekit.js` (`_validateKeyWithBackend`):
`!apiKey || !apiKey.startsWith('sk_prod_')`. -/
def keyFormatBad (apiKey : Option String) : Bool :=
  match apiKey with
  | none => true
  | some k => k == "" || !(strStartsWith "sk_prod_" k)

/-- Model of `generateApiKey` from `api-validate.js` / `api-subscriptions.js`:
`'sk_prod_' + random + random` where each `random` is a
`Math.random().toString(36).substring(2, 15)` draw (modelled as arbitrary
strings). -/
def generateApiKey (r1 r2 : String) : String :=
  "sk_prod_" ++ (r1 ++ r2)

/-! ## Remote provider data model -/

/-- A Stripe customer: identifier, email, and the string-to-string metadata
map that carries the license key under the `"apiKey"` entry. -/
structure Customer where
  id : String
  email : String
  metadata : List (String × String)
deriving DecidableEq, Repr

/-- A price, as seen from a subscription line item: its identifier and
`recurring.usage_type` when the price is recurring (`some "metered"` tags a
metered price; `none` models a price with no recurring usage type). -/
structure Price where
  id : String
  usageType : Option String
deriving DecidableEq, Repr

/-- A subscription line item referencing a price. -/
structure SubscriptionItem where
  id : String
  price : Price
deriving DecidableEq, Repr

/-- A Stripe subscription: identifier, owning customer, status string
(`"active"`, `"canceled"`, `"past_due"`, ...), and its line items. -/
structure Subscription where
  id : String
  customer : String
  status : String
  items : List SubscriptionItem
deriving DecidableEq, Repr

/-- One usage increment submitted via `subscriptionItems.createUsageRecord`:
the line item, the quantity (always 1 in this code) and the call-time
timestamp. -/
structure UsageRecord where
  subscriptionItem : String
  quantity : Int
  timestamp : Int
deriving DecidableEq, Repr

/-- The remote provider's state as this gateway observes it. -/
structure StripeState where
  customers : List Customer
  subscriptions : List Subscription
  usageRecords : List UsageRecord
deriving DecidableEq, Repr

/-- Response of a validation endpoint: HTTP status, the body's
success/valid boolean, and the body's error string when present. -/
structure ValidateResponse where
  status : Nat
  ok : Bool
  error : Option String
deriving DecidableEq, Repr

/-- Model of `stripe.customers.list({ limit: 100 })` followed by
`customers.data.find(c => c.metadata?.apiKey === apiKey)`: scan the first
page of the directory for the account carrying the key. -/
def findCustomerByKey (customers : List Customer) (apiKey : String) : Option Customer :=
  (customers.take 100).find? (fun c => c.metadata.lookup "apiKey" == some apiKey)

/-- The subscriptions of one customer, in directory order
(`stripe.subscriptions.list({ customer })` without a status filter). -/
def subsOf (st : StripeState) (customerId : String) : List Subscription :=
  st.subscriptions.filter (fun s => s.customer == customerId)

/-- Endpoint `/api/validate-key` from `server.js`: format guard, directory lookup,
then `subscriptions.list({ customer, limit: 1 })` and
`.find(s => s.status === 'active')` over that single-element page.
The `STRIPE_SECRET_KEY`-missing branch (static configuration) is assumed
configured. -/
def serverValidateKey (st : StripeState) (apiKey : Option String) : ValidateResponse :=
  if keyFormatBad apiKey then
    { status := 400, ok := false, error := some "Invalid API key format" }
  else
    match findCustomerByKey st.customers (apiKey.getD "") with
    | none => { status := 401, ok := false, error := some "API Key not found or expired" }
    | some c =>
      match ((subsOf st c.id).take 1).find? (fun s => s.status == "active") with
      | none => { status := 401, ok := false, error := some "No active subscription" }
      | some _ => { status := 200, ok := true, error := none }

/-- Endpoint `/validate-key` from `api-validate.js` (identical in
`api-subscriptions.js`): only a non-emptiness guard on the key, directory
lookup, then `subscriptions.list({ customer, status: 'active', limit: 1 })`
— the provider filters by status before applying the page limit. -/
def routerValidateKey (st : StripeState) (apiKey : Option String) : ValidateResponse :=
  if jsFalsy apiKey then
    { status := 400, ok := false, error := some "No API key provided" }
  else
    match findCustomerByKey st.customers (apiKey.getD "") with
    | none => { status := 401, ok := false, error := some "Invalid API key" }
    | some c =>
      let activeSubs :=
        ((st.subscriptions.filter (fun s => s.customer == c.id && s.status == "active")).take 1)
      if activeSubs.length > 0 then
        { status := 200, ok := true, error := none }
      else
        { status := 402, ok := false, error := some "Subscription expired or not found" }

/-- The metered line item of a subscription, per `part_001`: guarded by
`items.data.length > 0`, then
`items.data.find(item => item.price.recurring?.usage_type === 'metered')`. -/
def meteredItemOf (s : Subscription) : Option SubscriptionItem :=
  if s.items.length > 0 then
    s.items.find? (fun it => it.price.usageType == some "metered")
  else
    none

/-- Endpoint `/api/validate-key` from `part_001`: like `serverValidateKey` but, on
success, reports one usage increment on the metered line item when one
exists. `usageSubmitOk = false` models `createUsageRecord` throwing; the
error is caught and logged, leaving the state unchanged and the response
unaffected. `now` is `Math.floor(Date.now() / 1000)` at the call. -/
def meteredValidateKey (st : StripeState) (apiKey : Option String)
    (usageSubmitOk : Bool) (now : Int) : ValidateResponse × StripeState :=
  if keyFormatBad apiKey then
    ({ status := 400, ok := false, error := some "Invalid API key format" }, st)
  else
    match findCustomerByKey st.customers (apiKey.getD "") with
    | none => ({ status := 401, ok := false, error := some "API Key not found or expired" }, st)
    | some c =>
      match ((subsOf st c.id).take 1).find? (fun s => s.status == "active") with
      | none => ({ status := 401, ok := false, error := some "No active subscription" }, st)
      | some activeSub =>
        let st' :=
          match meteredItemOf activeSub with
          | some mi =>
            if usageSubmitOk then
              { st with usageRecords :=
                  st.usageRecords ++ [{ subscriptionItem := mi.id, quantity := 1, timestamp := now }] }
            else st
          | none => st
        ({ status := 200, ok := true, error := none }, st')

/-! ## Provisioning endpoints -/

/-- Response of a provisioning endpoint: HTTP status, the body's `success`
boolean, the returned license key when the body carries one, and the body's
error string when present. -/
structure CreateResponse where
  status : Nat
  success : Bool
  apiKey : Option String
  error : Option String
deriving DecidableEq, Repr

/-- Set one key of a Stripe metadata map (`customers.update` merges keys:
the written key replaces any previous value, other keys are kept). -/
def metaSet (m : List (String × String)) (k v : String) : List (String × String) :=
  (k, v) :: m.filter (fun p => p.1 != k)

/-- Model of `stripe.customers.update(cid, { metadata: ... })` applied to the
directory: every customer with the given id gets the metadata key set. -/
def updateCustomerMetadata (customers : List Customer) (cid k v : String) : List Customer :=
  customers.map (fun c => if c.id == cid then { c with metadata := metaSet c.metadata k v } else c)

/-- The plan-to-price map of `server.js` (the `process.env.PRICE_ID_*`
fallback literals, with the environment unset). -/
def serverPriceIds (plan : String) : Option String :=
  if plan == "starter" then some "price_starter"
  else if plan == "pro" then some "price_pro"
  else if plan == "enterprise" then some "price_enterprise"
  else if plan == "pay_as_you_go" then some "price_pay_as_you_go"
  else none

/-- The `STRIPE_PRICES` map of `api-subscriptions.js`. -/
def routerPriceOf (plan : String) : Option String :=
  if plan == "starter" then some "price_1T1YFyPEx5wbrbU8foR2V9X0"
  else if plan == "pro" then some "price_1T1YFYPEx5wbrbU87ptM6pIT"
  else if plan == "enterprise" then some "price_1T1YEyPEx5wbrbU8YMecZZ1B"
  else none

/-- Find-or-create of the billing account by email
(`customers.list({ email, limit: 1 })`, reuse the first match, otherwise
create a fresh customer with empty metadata and the provider-chosen id). -/
def findOrCreateCustomer (st : StripeState) (email newCustomerId : String) :
    Customer × StripeState :=
  match (st.customers.filter (fun c => c.email == email)).take 1 with
  | c :: _ => (c, st)
  | [] =>
    let c : Customer := { id := newCustomerId, email := email, metadata := [] }
    (c, { st with customers := st.customers ++ [c] })

/-- Endpoint `/api/create-subscription` from `server.js`: required-field guard, plan
lookup, find-or-create customer, generate `'sk_prod_' + random`, write it
into the customer metadata, then create the subscription.
`createOutcome` is the provider's result for `subscriptions.create`
(`Except.error` = the call threw, caught by the surrounding handler as a
500; `Except.ok sub` = the created subscription object). If the created
subscription's status is not `'active'`, a 400 failure is returned; the
metadata write is not rolled back in any failure branch. -/
def serverCreateSubscription (st : StripeState)
    (email name paymentMethodId plan : Option String)
    (newCustomerId keyRandom : String)
    (createOutcome : Except String Subscription) : CreateResponse × StripeState :=
  if jsFalsy email || jsFalsy name || jsFalsy paymentMethodId || jsFalsy plan then
    ({ status := 400, success := false, apiKey := none,
       error := some "Missing required fields: email, name, paymentMethodId, plan" }, st)
  else
    match serverPriceIds (plan.getD "") with
    | none => ({ status := 400, success := false, apiKey := none,
                 error := some "Invalid plan selected" }, st)
    | some _ =>
      let found := findOrCreateCustomer st (email.getD "") newCustomerId
      let apiKey := "sk_prod_" ++ keyRandom
      let st₂ := { found.2 with
                   customers := updateCustomerMetadata found.2.customers found.1.id "apiKey" apiKey }
      match createOutcome with
      | .error e => ({ status := 500, success := false, apiKey := none, error := some e }, st₂)
      | .ok sub =>
        let st₃ := { st₂ with subscriptions := st₂.subscriptions ++ [sub] }
        if sub.status != "active" then
          ({ status := 400, success := false, apiKey := none,
             error := some ("Subscription could not be activated: " ++ sub.status) }, st₃)
        else
          ({ status := 200, success := true, apiKey := some apiKey, error := none }, st₃)

/-- Endpoint `/create-subscription` from `api-subscriptions.js`: required-field
guard, find-or-create customer, `generateApiKey()`, metadata write of
`apiKey`/`plan`/`createdAt` (`nowIso` is the creation instant), plan lookup
(only after the metadata write), then `subscriptions.create` — and a success
response carrying the key, with no check of the created subscription's
status. -/
def routerCreateSubscription (st : StripeState)
    (email name paymentMethodId plan : Option String)
    (newCustomerId r1 r2 nowIso : String)
    (createOutcome : Except String Subscription) : CreateResponse × StripeState :=
  if jsFalsy email || jsFalsy name || jsFalsy paymentMethodId || jsFalsy plan then
    ({ status := 400, success := false, apiKey := none,
       error := some "Missing required fields" }, st)
  else
    let found := findOrCreateCustomer st (email.getD "") newCustomerId
    let apiKey := generateApiKey r1 r2
    let meta := fun m => metaSet (metaSet (metaSet m "apiKey" apiKey) "plan" (plan.getD "")) "createdAt" nowIso
    let st₂ := { found.2 with
                 customers := found.2.customers.map
                   (fun c => if c.id == found.1.id then { c with metadata := meta c.metadata } else c) }
    match routerPriceOf (plan.getD "") with
    | none => ({ status := 400, success := false, apiKey := none,
                 error := some "Invalid plan selected" }, st₂)
    | some _ =>
      match createOutcome with
      | .error e => ({ status := 500, success := false, apiKey := none, error := some e }, st₂)
      | .ok sub =>
        ({ status := 200, success := true, apiKey := some apiKey, error := none },
         { st₂ with subscriptions := st₂.subscriptions ++ [sub] })

/-! ## SDK (`stripekit.js` and the legacy `part_000`) -/

/-- The backend's reply to the `fetch` in `_validateKeyWithBackend`:
`ok` is `response.ok`, `valid` and `error` are the parsed JSON body's
fields (`none` models an absent field). -/
structure BackendResponse where
  ok : Bool
  valid : Bool
  error : Option String
deriving DecidableEq, Repr

/-- Method `_validateKeyWithBackend` from `stripekit.js`. The format guard runs
first; `backend = none` models the `fetch` itself throwing (network
failure). Every failure is re-thrown wrapped in the
`API Key Validation Failed` message, mirroring the method's `catch`. -/
def validateKeyWithBackend (apiKey : Option String) (backend : Option BackendResponse) :
    Except String Unit :=
  let inner : Except String Unit :=
    if keyFormatBad apiKey then
      .error "Invalid StripeKit API key format. Must start with sk_prod_"
    else
      match backend with
      | none => .error "fetch failed"
      | some r =>
        if !r.ok then .error (jsOr r.error "API key validation failed")
        else if !r.valid then .error (jsOr r.error "Invalid API key")
        else .ok ()
  match inner with
  | .error m => .error ("❌ API Key Validation Failed: " ++ m)
  | .ok u => .ok u

/-- Method `_checkAuthorization` from `stripekit.js`: a falsy `apiKey` (absent or
empty string) is development mode and passes; otherwise the key is
validated against the backend on every call. -/
def checkAuthorization (apiKey : Option String) (backend : Option BackendResponse) :
    Except String Unit :=
  if jsFalsy apiKey then .ok ()
  else validateKeyWithBackend apiKey backend

/-- The nested `event.data.object` of a webhook payload as consumed by the
transformer (fields not read by the code are omitted). -/
structure StripeEventData where
  id : String
  customer : String
  amount : Int
  currency : String
  status : String
  metadata : List (String × String)
  currentPeriodEnd : Int
  refunded : Bool
deriving DecidableEq, Repr

/-- A verified webhook event: the type tag and the nested object. -/
structure StripeEvent where
  type : String
  data : StripeEventData
deriving DecidableEq, Repr

/-- The canonical shapes produced by `_transformWebhookData`: payment
outcomes, subscription lifecycle events, charge refunds, and the
pass-through default for unmapped types. `nextBillingDate` is the
`new Date(current_period_end * 1000)` instant in epoch milliseconds. -/
inductive TransformedData where
  | paymentOutcome (type paymentId customerId : String) (amount : ℚ)
      (currency status : String) (metadata : List (String × String))
  | subscriptionLifecycle (type subscriptionId customerId status : String)
      (nextBillingDate : Int)
  | chargeRefund (type chargeId customerId : String) (amount : ℚ) (refunded : Bool)
  | passThrough (type : String) (data : StripeEventData)
deriving DecidableEq, Repr

/-- Method `_transformWebhookData` from `stripekit.js`: the switch over
`event.type`, with minor-unit amounts divided by 100. -/
def transformWebhookData (event : StripeEvent) : TransformedData :=
  if event.type == "payment_intent.succeeded" || event.type == "payment_intent.payment_failed" then
    .paymentOutcome event.type event.data.id event.data.customer
      ((event.data.amount : ℚ) / 100) event.data.currency event.data.status event.data.metadata
  else if event.type == "customer.subscription.created" || event.type == "customer.subscription.deleted" then
    .subscriptionLifecycle event.type event.data.id event.data.customer event.data.status
      (event.data.currentPeriodEnd * 1000)
  else if event.type == "charge.refunded" then
    .chargeRefund event.type event.data.id event.data.customer
      ((event.data.amount : ℚ) / 100) event.data.refunded
  else
    .passThrough event.type event.data

/-- A registered webhook callback: receives the transformed data and the
original event, and either returns normally or throws. -/
def Handler : Type :=
  TransformedData → StripeEvent → Except String Unit

/-- The structured result `handleWebhook` returns: `success` plus either
the event type (success) or the error message (failure). -/
structure WebhookResult where
  success : Bool
  eventType : Option String
  error : Option String

/-- Method `handleWebhook` from `stripekit.js`. `construct` is the outcome of
`stripe.webhooks.constructEvent` (`Except.error` = signature verification
threw). The second component of the result lists the transformed payloads
delivered to handlers during the call (empty = no handler was invoked).
Every throw inside the `try` — authorization, verification, or the handler
itself — is caught and converted to the structured failure result. -/
def handleWebhookRun (apiKey : Option String) (backend : Option BackendResponse)
    (construct : Except String StripeEvent) (handlers : List (String × Handler)) :
    WebhookResult × List TransformedData :=
  match checkAuthorization apiKey backend with
  | .error e => ({ success := false, eventType := none, error := some e }, [])
  | .ok _ =>
    match construct with
    | .error e => ({ success := false, eventType := none, error := some e }, [])
    | .ok event =>
      match handlers.lookup event.type with
      | none => ({ success := true, eventType := some event.type, error := none }, [])
      | some h =>
        let t := transformWebhookData event
        match h t event with
        | .error e => ({ success := false, eventType := none, error := some e }, [t])
        | .ok _ => ({ success := true, eventType := some event.type, error := none }, [t])

/-- Method `constructEvent` from the legacy SDK (`part_000`): it catches the
verifier's throw and re-throws a wrapped exception — the result stays an
exception to the caller (`Except.error`), not a structured result. -/
def constructEventLegacy (verify : Except String StripeEvent) : Except String StripeEvent :=
  match verify with
  | .ok e => .ok e
  | .error msg => .error ("Webhook Error: " ++ msg)

/-! ## Concrete fixtures used by witnesses and counterexamples -/

/-- A directory holding one account whose metadata literally contains the
non-production key `"not_a_real_key"`, with an active subscription. -/
def c1State : StripeState :=
  { customers := [{ id := "cus_1", email := "dev@example.com",
                    metadata := [("apiKey", "not_a_real_key")] }],
    subscriptions := [{ id := "sub_1", customer := "cus_1", status := "active", items := [] }],
    usageRecords := [] }

/-- A directory whose single account owns a canceled subscription listed
before an active one. -/
def c2State : StripeState :=
  { customers := [{ id := "cus_2", email := "b@example.com",
                    metadata := [("apiKey", "sk_prod_abc")] }],
    subscriptions :=
      [{ id := "sub_canceled", customer := "cus_2", status := "canceled", items := [] },
       { id := "sub_active", customer := "cus_2", status := "active", items := [] }],
    usageRecords := [] }

/-- An active pay-as-you-go subscription with a flat and a metered line item. -/
def c3Sub : Subscription :=
  { id := "sub_3", customer := "cus_3", status := "active",
    items := [{ id := "si_base", price := { id := "price_base_2usd", usageType := none } },
              { id := "si_metered", price := { id := "price_metered_0_01", usageType := some "metered" } }] }

/-- A directory with one metered active account keyed by `"sk_prod_meter"`. -/
def c3State : StripeState :=
  { customers := [{ id := "cus_3", email := "m@example.com",
                    metadata := [("apiKey", "sk_prod_meter")] }],
    subscriptions := [c3Sub],
    usageRecords := [] }

/-- The customer record of `c3State`. -/
def c3Customer : Customer :=
  { id := "cus_3", email := "m@example.com", metadata := [("apiKey", "sk_prod_meter")] }

/-- An empty provider state. -/
def emptyState : StripeState :=
  { customers := [], subscriptions := [], usageRecords := [] }

/-- A provider-created subscription that did not reach `active` status. -/
def c4Sub : Subscription :=
  { id := "sub_4", customer := "cus_new", status := "incomplete", items := [] }

/-- A refund event payload. -/
def c5Event : StripeEvent :=
  { type := "charge.refunded",
    data := { id := "ch_5", customer := "cus_5", amount := 500, currency := "usd",
              status := "succeeded", metadata := [], currentPeriodEnd := 0, refunded := true } }

/-- A registered callback that throws on every invocation. -/
def c5Handler : Handler := fun _ _ => .error "handler exploded"

/-- A payment-succeeded payload with minor-unit amount 2999 in `usd`. -/
def c6Event : StripeEvent :=
  { type := "payment_intent.succeeded",
    data := { id := "pi_6", customer := "cus_6", amount := 2999, currency := "usd",
              status := "succeeded", metadata := [], currentPeriodEnd := 0, refunded := false } }

/-- A registered callback that returns normally. -/
def c6Handler : Handler := fun _ _ => .ok ()

/-- An event whose type has no explicit mapping in the transformer. -/
def c8Event : StripeEvent :=
  { type := "invoice.paid",
    data := { id := "in_8", customer := "cus_8", amount := 100, currency := "usd",
              status := "paid", metadata := [], currentPeriodEnd := 0, refunded := false } }

/-- A validly signed payment event used on the webhook path. -/
def c9Event : StripeEvent :=
  { type := "payment_intent.succeeded",
    data := { id := "pi_9", customer := "cus_9", amount := 100, currency := "usd",
              status := "succeeded", metadata := [], currentPeriodEnd := 0, refunded := false } }

/-- The usage records appended by one `/api/validate-key` call of `part_001`
that found the given active subscription: one increment when a metered line
item exists and the submission succeeds, nothing otherwise. -/
def usageDelta (sub : Subscription) (usageSubmitOk : Bool) (now : Int) : List UsageRecord :=
  match meteredItemOf sub, usageSubmitOk with
  | some mi, true => [{ subscriptionItem := mi.id, quantity := 1, timestamp := now }]
  | _, _ => []

/-- The event types with an explicit mapping in `_transformWebhookData`. -/
def knownEventTypes : List String :=
  ["payment_intent.succeeded", "payment_intent.payment_failed",
   "customer.subscription.created", "customer.subscription.deleted", "charge.refunded"]

/-! ## Theorems -/

theorem isPrefixOf_append_self (l t : List Char) : l.isPrefixOf (l ++ t) = true := by
  induction l with
  | nil => simp [List.isPrefixOf]
  | cons a l ih => simp [List.isPrefixOf, ih]

theorem strStartsWith_append_self (pre r : String) : strStartsWith pre (pre ++ r) = true := by
  unfold strStartsWith
  rw [String.data_append]
  exact isPrefixOf_append_self _ _

theorem sk_prod_append_ne_empty (r : String) : ("sk_prod_" ++ r) ≠ "" := by
  intro h
  have hd := congrArg String.data h
  rw [String.data_append] at hd
  simp [String.data] at hd

/-- Claim C10: every license key produced by key generation — the
`generateApiKey` helper of `api-validate.js`/`api-subscriptions.js` and the
inline `'sk_prod_' + random` of `server.js`/`part_001` — begins with the
literal prefix `sk_prod_`, hence passes the non-empty production-prefix
format check of the validation protocol. -/
theorem c10_generated_keys_pass_format_check (r1 r2 r : String) :
    keyFormatBad (some (generateApiKey r1 r2)) = false ∧
    keyFormatBad (some ("sk_prod_" ++ r)) = false := by
  constructor <;>
    simp [keyFormatBad, generateApiKey, strStartsWith_append_self, sk_prod_append_ne_empty]

/-- Claim C1, counterexample: the `/validate-key` router endpoint
(`api-validate.js`, `api-subscriptions.js`) checks only that the key is
non-empty, so the non-production key `"not_a_real_key"` is not rejected
with a format error; the directory lookup runs, and because an account's
metadata contains that literal string with an active subscription the call
even validates successfully. -/
theorem c1_counterexample :
    strStartsWith "sk_prod_" "not_a_real_key" = false ∧
    routerValidateKey c1State (some "not_a_real_key") =
      { status := 200, ok := true, error := none } := by
  constructor
  · decide
  · decide

/-- Claim C1, amended: for the `/api/validate-key` endpoints (`server.js`,
`part_001`) and the SDK's client-side check, an empty or
non-`sk_prod_`-prefixed key fails with the format error, for every
directory state and hence before (and independent of) any directory
lookup; the `/validate-key` router endpoints only reject empty keys at
this stage. -/
theorem c1_format_error_before_lookup (st : StripeState) (apiKey : Option String)
    (f : Bool) (now : Int) (b : Option BackendResponse)
    (h : keyFormatBad apiKey = true) :
    serverValidateKey st apiKey =
      { status := 400, ok := false, error := some "Invalid API key format" } ∧
    meteredValidateKey st apiKey f now =
      ({ status := 400, ok := false, error := some "Invalid API key format" }, st) ∧
    validateKeyWithBackend apiKey b =
      .error "❌ API Key Validation Failed: Invalid StripeKit API key format. Must start with sk_prod_" := by
  refine ⟨?_, ?_, ?_⟩ <;>
    simp [serverValidateKey, meteredValidateKey, validateKeyWithBackend, h]

/-- Claim C1 witness: the format error fires on `"not_a_real_key"` even
though `c1State` contains an account whose metadata is that literal string. -/
theorem c1_witness :
    keyFormatBad (some "not_a_real_key") = true ∧
    serverValidateKey c1State (some "not_a_real_key") =
      { status := 400, ok := false, error := some "Invalid API key format" } :=
  ⟨by decide,
   (c1_format_error_before_lookup c1State (some "not_a_real_key") true 0 none (by decide)).1⟩

/-- Claim C7: when signature verification fails (`constructEvent` throws),
`handleWebhook` returns a single structured failure: no handler is
invoked, no event data reaches the caller, and the provider state is
untouched (the run has no other effect). -/
theorem c7_signature_failure_single_structured_failure
    (apiKey : Option String) (b : Option BackendResponse)
    (e : String) (handlers : List (String × Handler)) :
    (handleWebhookRun apiKey b (.error e) handlers).1.success = false ∧
    (handleWebhookRun apiKey b (.error e) handlers).1.eventType = none ∧
    (handleWebhookRun apiKey b (.error e) handlers).2 = [] := by
  unfold handleWebhookRun
  cases checkAuthorization apiKey b <;> simp

/-- Claim C2, counterexample: on the `/api/validate-key` endpoint of
`server.js` the key `"sk_prod_abc"` resolves to account `cus_2`, which owns
an active subscription — yet status evaluation fails, because the endpoint
lists the subscriptions with `limit: 1` and no status filter and only then
searches that one-element page for an active one. -/
theorem c2_counterexample :
    (c2State.subscriptions.any (fun s => s.customer == "cus_2" && s.status == "active")) = true ∧
    (findCustomerByKey c2State.customers "sk_prod_abc").map Customer.id = some "cus_2" ∧
    serverValidateKey c2State (some "sk_prod_abc") =
      { status := 401, ok := false, error := some "No active subscription" } := by
  refine ⟨by decide, by decide, by decide⟩

/-- Claim C2, amended: on the `/validate-key` router endpoint
(`api-validate.js`), for a key that resolves to an account, status
evaluation succeeds iff the account has at least one subscription with
status exactly `active`, and otherwise fails with the
subscription-inactive error; the `/api/validate-key` server endpoint
instead inspects only the first listed subscription (page size 1), so an
account whose first-listed subscription is inactive fails even when a
later active one exists. -/
theorem c2_router_active_iff (st : StripeState) (k : String) (c : Customer)
    (hk : k ≠ "")
    (hc : findCustomerByKey st.customers k = some c) :
    ((routerValidateKey st (some k)).ok = true ↔
       ∃ s ∈ st.subscriptions, s.customer = c.id ∧ s.status = "active") ∧
    ((routerValidateKey st (some k)).ok = false →
       routerValidateKey st (some k) =
         { status := 402, ok := false, error := some "Subscription expired or not found" }) := by
  have hfalsy : jsFalsy (some k) = false := by simp [jsFalsy, hk]
  by_cases hfe : st.subscriptions.filter (fun s => s.customer == c.id && s.status == "active") = []
  · have hnone : ¬ ∃ s ∈ st.subscriptions, s.customer = c.id ∧ s.status = "active" := by
      rw [List.filter_eq_nil_iff] at hfe
      rintro ⟨s, hs, h1, h2⟩
      exact hfe s hs (by simp [h1, h2])
    simp [routerValidateKey, hfalsy, hc, hfe, hnone]
  · have hpos : 0 < (st.subscriptions.filter
        (fun s => s.customer == c.id && s.status == "active")).length :=
      List.length_pos.mpr hfe
    have hsome : ∃ s ∈ st.subscriptions, s.customer = c.id ∧ s.status = "active" := by
      obtain ⟨s, hs⟩ := List.exists_mem_of_ne_nil _ hfe
      have := List.mem_filter.mp hs
      exact ⟨s, this.1, by simpa using this.2⟩
    simp [routerValidateKey, hfalsy, hc, hsome, List.length_take, hpos]

/-- Claim C2 witness: on `c2State` the router endpoint accepts
`"sk_prod_abc"`, since an active subscription exists among the account's
subscriptions. -/
theorem c2_witness :
    ((routerValidateKey c2State (some "sk_prod_abc")).ok = true ↔
       ∃ s ∈ c2State.subscriptions, s.customer = "cus_2" ∧ s.status = "active") ∧
    (routerValidateKey c2State (some "sk_prod_abc")).ok = true :=
  ⟨(c2_router_active_iff c2State "sk_prod_abc"
      { id := "cus_2", email := "b@example.com", metadata := [("apiKey", "sk_prod_abc")] }
      (by decide) (by decide)).1,
   ((c2_router_active_iff c2State "sk_prod_abc"
      { id := "cus_2", email := "b@example.com", metadata := [("apiKey", "sk_prod_abc")] }
      (by decide) (by decide)).1).mpr
     ⟨{ id := "sub_active", customer := "cus_2", status := "active", items := [] },
      by decide, rfl, rfl⟩⟩

/-- Claim C3: on every successful `/api/validate-key` call of `part_001`
that resolves to an active subscription, exactly one usage increment
(quantity 1, timestamped at the call) is appended when a metered line item
exists and the submission succeeds, and nothing is appended otherwise —
two sequential calls append two increments — and in every case, metered or
not, submission failing or not, the response is the same success. -/
theorem c3_exactly_one_usage_increment_per_call
    (st : StripeState) (k : String) (c : Customer) (sub : Subscription)
    (f : Bool) (now₁ now₂ : Int)
    (hk : keyFormatBad (some k) = false)
    (hc : findCustomerByKey st.customers k = some c)
    (hs : ((subsOf st c.id).take 1).find? (fun s => s.status == "active") = some sub) :
    (meteredValidateKey st (some k) f now₁).1 = { status := 200, ok := true, error := none } ∧
    (meteredValidateKey st (some k) f now₁).2 =
      { st with usageRecords := st.usageRecords ++ usageDelta sub f now₁ } ∧
    (meteredValidateKey ((meteredValidateKey st (some k) f now₁).2) (some k) f now₂).2 =
      { st with usageRecords := st.usageRecords ++ usageDelta sub f now₁ ++ usageDelta sub f now₂ } := by
  have key : ∀ (s : StripeState) (now : Int), s.customers = st.customers →
      s.subscriptions = st.subscriptions →
      meteredValidateKey s (some k) f now =
        ({ status := 200, ok := true, error := none },
         { s with usageRecords := s.usageRecords ++ usageDelta sub f now }) := by
    intro s now hcs hss
    have hc2 : findCustomerByKey s.customers k = some c := by rw [hcs]; exact hc
    have hs2 : ((subsOf s c.id).take 1).find? (fun x => x.status == "active") = some sub := by
      unfold subsOf at hs ⊢
      rw [hss]
      exact hs
    unfold meteredValidateKey
    simp only [hk, Option.getD_some, Bool.false_eq_true, if_false, hc2, hs2]
    cases hmi : meteredItemOf sub with
    | none => simp [usageDelta, hmi]
    | some mi => cases f <;> simp [usageDelta, hmi]
  refine ⟨?_, ?_, ?_⟩
  · rw [key st now₁ rfl rfl]
  · rw [key st now₁ rfl rfl]
  · rw [key st now₁ rfl rfl]
    dsimp only
    rw [key ({ st with usageRecords := st.usageRecords ++ usageDelta sub f now₁ }) now₂ rfl rfl]

/-- Claim C3 witness: on `c3State` each successful call appends one
increment on `si_metered` (two sequential calls append two), the response
succeeds even when the usage submission itself fails, and in that case no
record is appended. -/
theorem c3_witness :
    (meteredValidateKey c3State (some "sk_prod_meter") true 5).2.usageRecords =
      [{ subscriptionItem := "si_metered", quantity := 1, timestamp := 5 }] ∧
    (meteredValidateKey ((meteredValidateKey c3State (some "sk_prod_meter") true 5).2)
        (some "sk_prod_meter") true 7).2.usageRecords =
      [{ subscriptionItem := "si_metered", quantity := 1, timestamp := 5 },
       { subscriptionItem := "si_metered", quantity := 1, timestamp := 7 }] ∧
    (meteredValidateKey c3State (some "sk_prod_meter") false 5).1.ok = true ∧
    (meteredValidateKey c3State (some "sk_prod_meter") false 5).2 = c3State := by
  have Ht := c3_exactly_one_usage_increment_per_call c3State "sk_prod_meter" c3Customer c3Sub
    true 5 7 (by decide) (by decide) (by decide)
  have Hf := c3_exactly_one_usage_increment_per_call c3State "sk_prod_meter" c3Customer c3Sub
    false 5 7 (by decide) (by decide) (by decide)
  refine ⟨?_, ?_, ?_, ?_⟩
  · rw [Ht.2.1]; decide
  · rw [Ht.2.2]; decide
  · rw [Hf.1]
  · rw [Hf.2.1]; decide

theorem findOrCreateCustomer_mem (st : StripeState) (email ncid : String) :
    (findOrCreateCustomer st email ncid).1 ∈ (findOrCreateCustomer st email ncid).2.customers := by
  unfold findOrCreateCustomer
  cases h : (st.customers.filter (fun c => c.email == email)).take 1 with
  | nil => simp
  | cons c rest =>
    simp only
    have hm : c ∈ (st.customers.filter (fun x => x.email == email)).take 1 := by
      rw [h]; exact List.mem_cons_self _ _
    exact List.mem_of_mem_filter (List.take_subset _ _ hm)

theorem lookup_metaSet (m : List (String × String)) (k v : String) :
    (metaSet m k v).lookup k = some v := by
  simp [metaSet, List.lookup]

theorem updateCustomerMetadata_mem (c : Customer) (customers : List Customer)
    (hm : c ∈ customers) (k v : String) :
    ∃ c' ∈ updateCustomerMetadata customers c.id k v,
      c'.metadata.lookup k = some v ∧ c'.id = c.id := by
  refine ⟨if c.id == c.id then { c with metadata := metaSet c.metadata k v } else c,
    List.mem_map_of_mem _ hm, ?_⟩
  simp [lookup_metaSet]

/-- Claim C4, counterexample: the `/create-subscription` router endpoint
(`api-subscriptions.js`) never checks the created subscription's status —
with a provider-created subscription stuck in `incomplete` it still returns
a 200 success carrying a usable license key. -/
theorem c4_counterexample :
    c4Sub.status ≠ "active" ∧
    (routerCreateSubscription emptyState (some "a@b.c") (some "Ann") (some "pm_1") (some "pro")
        "cus_new" "r1" "r2" "2026-01-01T00:00:00Z" (.ok c4Sub)).1 =
      { status := 200, success := true, apiKey := some "sk_prod_r1r2", error := none } := by
  refine ⟨by decide, by decide⟩

/-- Claim C4, amended: on the `/api/create-subscription` endpoints
(`server.js`, `part_001`), a provisioning call whose created subscription
is not `active` reports failure with no usable key in the response, even
though the account's metadata was already mutated to hold the freshly
generated key and no rollback is performed; the `/create-subscription`
router endpoint (`api-subscriptions.js`) instead returns success without
inspecting the created subscription's status. -/
theorem c4_inactive_subscription_reports_failure_no_rollback
    (st : StripeState) (email name pm plan : Option String)
    (ncid keyRandom pid : String) (sub : Subscription)
    (hreq : (jsFalsy email || jsFalsy name || jsFalsy pm || jsFalsy plan) = false)
    (hplan : serverPriceIds (plan.getD "") = some pid)
    (hsub : sub.status ≠ "active") :
    (serverCreateSubscription st email name pm plan ncid keyRandom (.ok sub)).1 =
      { status := 400, success := false, apiKey := none,
        error := some ("Subscription could not be activated: " ++ sub.status) } ∧
    ∃ c ∈ (serverCreateSubscription st email name pm plan ncid keyRandom (.ok sub)).2.customers,
      c.metadata.lookup "apiKey" = some ("sk_prod_" ++ keyRandom) := by
  have hne : (sub.status != "active") = true := by
    simp [bne_iff_ne, hsub]
  unfold serverCreateSubscription
  simp only [hreq, Bool.false_eq_true, if_false, hplan, hne, if_true]
  constructor
  · trivial
  · obtain ⟨c', hc'mem, hc'look, _⟩ :=
      updateCustomerMetadata_mem (findOrCreateCustomer st (email.getD "") ncid).1
        (findOrCreateCustomer st (email.getD "") ncid).2.customers
        (findOrCreateCustomer_mem st (email.getD "") ncid) "apiKey" ("sk_prod_" ++ keyRandom)
    exact ⟨c', hc'mem, hc'look⟩

/-- Claim C4 witness: a `pro`-plan provisioning on the empty directory whose
created subscription came back `incomplete` fails with the activation
error, while the new account's metadata already carries the generated key. -/
theorem c4_witness :
    (serverCreateSubscription emptyState (some "a@b.c") (some "Ann") (some "pm_1") (some "pro")
        "cus_new" "r1" (.ok c4Sub)).1 =
      { status := 400, success := false, apiKey := none,
        error := some "Subscription could not be activated: incomplete" } ∧
    ∃ c ∈ (serverCreateSubscription emptyState (some "a@b.c") (some "Ann") (some "pm_1")
        (some "pro") "cus_new" "r1" (.ok c4Sub)).2.customers,
      c.metadata.lookup "apiKey" = some "sk_prod_r1" := by
  have H := c4_inactive_subscription_reports_failure_no_rollback emptyState
    (some "a@b.c") (some "Ann") (some "pm_1") (some "pro") "cus_new" "r1" "price_pro" c4Sub
    (by decide) (by decide) (by decide)
  exact H

/-- Claim C5, counterexample: `constructEvent` of the legacy SDK
(`part_000`) is a public operation that does not convert a verification
failure into a structured success/error result — it catches the verifier's
throw and re-throws a wrapped exception (`Except.error` models the throw
propagating to the caller). -/
theorem c5_counterexample :
    constructEventLegacy (.error "No signatures found matching the expected signature for payload") =
      (.error "Webhook Error: No signatures found matching the expected signature for payload"
        : Except String StripeEvent) ∧
    (constructEventLegacy
      (.error "No signatures found matching the expected signature for payload")).isOk = false :=
  ⟨rfl, rfl⟩

/-- Claim C5, amended: every error arising inside `handleWebhook` of the
main SDK (`stripekit.js`) — including a registered handler raising during
dispatch — is caught at the boundary and converted into the uniform
structured result with a success boolean and an error string, never
re-thrown; the legacy SDK's `constructEvent`, however, re-throws the
verification failure wrapped in a `Webhook Error:` message instead of
returning a structured result. -/
theorem c5_handler_raise_reported_not_rethrown
    (b : Option BackendResponse) (ev : StripeEvent) (h : Handler)
    (handlers : List (String × Handler)) (msg m : String)
    (hl : handlers.lookup ev.type = some h)
    (hr : h (transformWebhookData ev) ev = .error msg) :
    handleWebhookRun none b (.ok ev) handlers =
      ({ success := false, eventType := none, error := some msg }, [transformWebhookData ev]) ∧
    constructEventLegacy (.error m) = .error ("Webhook Error: " ++ m) := by
  constructor
  · simp [handleWebhookRun, checkAuthorization, jsFalsy, hl, hr]
  · rfl

/-- Claim C5 witness: a refund handler that throws is reported as a failed
dispatch in the structured result. -/
theorem c5_witness :
    handleWebhookRun none none (.ok c5Event) [("charge.refunded", c5Handler)] =
      ({ success := false, eventType := none, error := some "handler exploded" },
       [transformWebhookData c5Event]) ∧
    constructEventLegacy (.error "bad signature") = .error ("Webhook Error: " ++ "bad signature") :=
  c5_handler_raise_reported_not_rethrown none c5Event c5Handler
    [("charge.refunded", c5Handler)] "handler exploded" "bad signature" rfl rfl

/-- Claim C6: for every verified payment event (succeeded or failed), the
canonical PaymentOutcome's amount is the payload's minor-unit integer
amount divided by 100, and `handleWebhook` on such an event returns success
with the source event type while delivering the converted payload to the
registered handler. -/
theorem c6_payment_amount_minor_unit_conversion
    (b : Option BackendResponse) (ev : StripeEvent) (h : Handler)
    (handlers : List (String × Handler))
    (het : ev.type = "payment_intent.succeeded" ∨ ev.type = "payment_intent.payment_failed")
    (hl : handlers.lookup ev.type = some h)
    (hok : h (transformWebhookData ev) ev = .ok ()) :
    transformWebhookData ev =
      .paymentOutcome ev.type ev.data.id ev.data.customer ((ev.data.amount : ℚ) / 100)
        ev.data.currency ev.data.status ev.data.metadata ∧
    handleWebhookRun none b (.ok ev) handlers =
      ({ success := true, eventType := some ev.type, error := none },
       [transformWebhookData ev]) := by
  constructor
  · rcases het with het | het <;> simp [transformWebhookData, het]
  · simp [handleWebhookRun, checkAuthorization, jsFalsy, hl, hok]

/-- Claim C6 witness: the signed `payment_intent.succeeded` payload with
amount 2999 and currency `usd` yields a success result tagged with the
source event type, and the registered handler receives the payload with
amount 29.99. -/
theorem c6_witness :
    handleWebhookRun none none (.ok c6Event) [("payment_intent.succeeded", c6Handler)] =
      ({ success := true, eventType := some "payment_intent.succeeded", error := none },
       [.paymentOutcome "payment_intent.succeeded" "pi_6" "cus_6" ((2999 : ℚ) / 100)
          "usd" "succeeded" []]) ∧
    ((2999 : ℚ) / 100 : ℚ) = 29.99 := by
  have H := c6_payment_amount_minor_unit_conversion none c6Event c6Handler
    [("payment_intent.succeeded", c6Handler)] (Or.inl rfl) rfl rfl
  refine ⟨?_, by norm_num⟩
  rw [H.2, H.1]
  rfl

/-- Claim C8: an event whose type has no explicit mapping in the
transformer is turned into a PassThrough carrying the raw payload with the
type tag preserved (the transformer is total, so it never fails), and
dispatch of an event type with no registered handler is a no-op returning
success. -/
theorem c8_passthrough_and_unregistered_noop
    (b : Option BackendResponse) (ev : StripeEvent) (handlers : List (String × Handler))
    (hunk : ev.type ∉ knownEventTypes)
    (hl : handlers.lookup ev.type = none) :
    transformWebhookData ev = .passThrough ev.type ev.data ∧
    handleWebhookRun none b (.ok ev) handlers =
      ({ success := true, eventType := some ev.type, error := none }, []) := by
  simp only [knownEventTypes, List.mem_cons, List.not_mem_nil, or_false, not_or] at hunk
  obtain ⟨h1, h2, h3, h4, h5⟩ := hunk
  constructor
  · simp [transformWebhookData, h1, h2, h3, h4, h5]
  · simp [handleWebhookRun, checkAuthorization, jsFalsy, hl]

/-- Claim C8 witness: the unmapped `invoice.paid` event passes through
unchanged and its dispatch with an empty registry is a no-op success. -/
theorem c8_witness :
    c8Event.type ∉ knownEventTypes ∧
    transformWebhookData c8Event = .passThrough "invoice.paid" c8Event.data ∧
    handleWebhookRun none none (.ok c8Event) [] =
      ({ success := true, eventType := some "invoice.paid", error := none }, []) := by
  have H := c8_passthrough_and_unregistered_noop none c8Event [] (by decide) rfl
  exact ⟨by decide, H.1, H.2⟩

/-- Claim C9, counterexample: an instance constructed with the non-null but
empty-string license key is treated as development mode — `handleWebhook`
performs no backend validation at all and succeeds on a validly signed
payload, even though backend validation of that key fails (its format
check rejects the empty string). -/
theorem c9_counterexample :
    (validateKeyWithBackend (some "") none).isOk = false ∧
    (handleWebhookRun (some "") none (.ok c9Event) []).1.success = true :=
  ⟨rfl, rfl⟩

/-- Claim C9, amended: for every instance whose license key is non-null and
non-empty, each `handleWebhook` call validates that key against the
backend before signature verification: when that validation fails for any
reason, the call returns the structured failure carrying the validation
error — whatever the signature-verification outcome would have been, and
with no handler invoked. An instance with an empty-string key runs in
development mode and skips the backend check. -/
theorem c9_webhook_gated_on_license_validation
    (k m : String) (b : Option BackendResponse)
    (construct : Except String StripeEvent) (handlers : List (String × Handler))
    (hk : k ≠ "")
    (hv : validateKeyWithBackend (some k) b = .error m) :
    handleWebhookRun (some k) b construct handlers =
      ({ success := false, eventType := none, error := some m }, []) := by
  have hfalsy : jsFalsy (some k) = false := by simp [jsFalsy, hk]
  simp [handleWebhookRun, checkAuthorization, hfalsy, hv]

/-- Claim C9 witness: with a well-formed key the backend rejects, a
validly signed payment event is still answered with the structured
validation failure and no handler runs. -/
theorem c9_witness :
    handleWebhookRun (some "sk_prod_live") (some { ok := true, valid := false, error := none })
        (.ok c9Event) [] =
      ({ success := false, eventType := none,
         error := some "❌ API Key Validation Failed: Invalid API key" }, []) :=
  c9_webhook_gated_on_license_validation "sk_prod_live"
    "❌ API Key Validation Failed: Invalid API key"
    (some { ok := true, valid := false, error := none }) (.ok c9Event) []
    (by decide) rfl
